import Mathlib

/-!
Verification of the PhotonAPI rate-limiter core (src/photonapi/limiter.py),
middleware pipeline (src/photonapi/middleware.py) and the WSGI entry point
(src/photonapi/app.py), via a shallow embedding in Lean.

Python floats and monotonic clock readings are modelled by `ℚ`; Python ints
by `ℤ`; Python strings by their character sequences (`List Char`), so that
every string operation is kernel-computable.  Stateful methods become pure
functions taking the current state and the current clock reading `now` and
returning the updated state together with the method's return value.  Locks
are dropped: each method body is a single critical section, so the
sequential function is exactly the per-call semantics the locks enforce.
-/

deriving instance DecidableEq for Except

namespace PhotonAPI

/-! ## Definitions -/

/-! ### TokenBucket (limiter.py lines 7-31) -/

/-- State of `TokenBucket`: `capacity`, `tokens`, `refill_rate`,
`last_refill`. -/
structure TokenBucket where
  capacity : ℚ
  tokens : ℚ
  refill_rate : ℚ
  last_refill : ℚ
  deriving Repr, DecidableEq

/-- `TokenBucket.__init__(capacity, refill_rate)` at clock reading `now`
(`time.monotonic()`): starts full. -/
def TokenBucket.init (capacity refill_rate now : ℚ) : TokenBucket :=
  { capacity := capacity, tokens := capacity, refill_rate := refill_rate,
    last_refill := now }

/-- `TokenBucket.consume(cost)` at clock reading `now` (limiter.py lines
15-24): refill `tokens` by `elapsed * refill_rate` capped at `capacity`,
set `last_refill = now`, then spend `cost` if enough tokens are available.
Returns the updated bucket and the success flag. -/
def TokenBucket.consume (b : TokenBucket) (now : ℚ) (cost : ℚ) :
    TokenBucket × Bool :=
  let elapsed := now - b.last_refill
  let refilled := min b.capacity (b.tokens + elapsed * b.refill_rate)
  if cost ≤ refilled then
    ({ b with tokens := refilled - cost, last_refill := now }, true)
  else
    ({ b with tokens := refilled, last_refill := now }, false)

/-- The conservation invariant of the spec: `0 ≤ tokens ≤ capacity`. -/
def TBInv (b : TokenBucket) : Prop :=
  0 ≤ b.tokens ∧ b.tokens ≤ b.capacity

instance (b : TokenBucket) : Decidable (TBInv b) := by
  unfold TBInv; infer_instance

/-- A sequence of `consume` events, each a pair `(now, cost)`.  Well-formed
relative to a start clock `t`: clock readings never decrease (monotonic
clock) and costs are nonnegative. -/
def EventsWF : ℚ → List (ℚ × ℚ) → Prop
  | _, [] => True
  | t, e :: rest => t ≤ e.1 ∧ 0 ≤ e.2 ∧ EventsWF e.1 rest

instance : ∀ (t : ℚ) (es : List (ℚ × ℚ)), Decidable (EventsWF t es)
  | _, [] => by unfold EventsWF; infer_instance
  | t, e :: rest =>
    have : Decidable (EventsWF e.1 rest) := instDecidableEventsWF e.1 rest
    by unfold EventsWF; infer_instance

/-- Run a whole sequence of `consume` calls, keeping only the final
bucket. -/
def consumeTrace (b : TokenBucket) (events : List (ℚ × ℚ)) : TokenBucket :=
  events.foldl (fun s e => (s.consume e.1 e.2).1) b

/-! ### SlidingWindowCounter (limiter.py lines 34-65) -/

/-- State of `SlidingWindowCounter`: `limit`, `window` (seconds) and the
list `_hits` of recorded hit timestamps, in chronological (append)
order. -/
structure SlidingWindowCounter where
  limit : ℤ
  window : ℚ
  hits : List ℚ
  deriving Repr, DecidableEq

/-- The purge performed at the top of `hit` (limiter.py line 45):
`self._hits = [t for t in self._hits if t > cutoff]` with
`cutoff = now - self.window`. -/
def SlidingWindowCounter.purge (c : SlidingWindowCounter) (now : ℚ) :
    List ℚ :=
  c.hits.filter (fun t => decide (now - c.window < t))

/-- `SlidingWindowCounter.hit(cost)` at clock reading `now` (limiter.py
lines 41-50).  After the purge, succeed iff `len(hits) + cost <= limit`,
appending `cost` copies of `now` (Python `range(cost)` is empty for
`cost < 0`, hence `cost.toNat`). -/
def SlidingWindowCounter.hit (c : SlidingWindowCounter) (now : ℚ)
    (cost : ℤ) : SlidingWindowCounter × Bool :=
  let retained := c.purge now
  if (retained.length : ℤ) + cost ≤ c.limit then
    ({ c with hits := retained ++ List.replicate cost.toNat now }, true)
  else
    ({ c with hits := retained }, false)

/-- `SlidingWindowCounter.reset_at` at clock reading `now` (limiter.py
lines 60-65): the head of the stored hits list plus the window, with no
purge; `now + window` when the list is empty. -/
def SlidingWindowCounter.reset_at (c : SlidingWindowCounter) (now : ℚ) :
    ℚ :=
  match c.hits with
  | [] => now + c.window
  | t :: _ => t + c.window

/-- Modelled from the spec sentence for `reset_at` as the claim reads it:
the timestamp of the oldest hit still within the trailing window
`(now - window, now]` plus the window, and `now + window` when no hit is
retained in that window. -/
def resetAtSpec (c : SlidingWindowCounter) (now : ℚ) : ℚ :=
  match c.purge now with
  | [] => now + c.window
  | t :: _ => t + c.window

/-! ### FixedWindowCounter (limiter.py lines 68-97) -/

/-- State of `FixedWindowCounter`: `limit`, `window` (seconds), current
`_count` and the start of the current window `_window_start`. -/
structure FixedWindowCounter where
  limit : ℤ
  window : ℚ
  count : ℤ
  window_start : ℚ
  deriving Repr, DecidableEq

/-- `FixedWindowCounter.hit(cost)` at clock reading `now` (limiter.py
lines 76-85): if `now - window_start >= window`, reset `count` to 0 and
set `window_start = now`; then succeed, adding `cost` to `count`, iff
`count + cost <= limit`. -/
def FixedWindowCounter.hit (c : FixedWindowCounter) (now : ℚ)
    (cost : ℤ) : FixedWindowCounter × Bool :=
  let reset := c.window ≤ now - c.window_start
  let cnt : ℤ := if reset then 0 else c.count
  let ws : ℚ := if reset then now else c.window_start
  if cnt + cost ≤ c.limit then
    ({ c with count := cnt + cost, window_start := ws }, true)
  else
    ({ c with count := cnt, window_start := ws }, false)

/-! ### Python strings -/

/-- Python strings, as character sequences. -/
abbrev PyStr := List Char

/-- Coerce a Lean string literal to its character sequence. -/
def pyStr (s : String) : PyStr := s.data

/-- Python `str.split(sep)` for a one-character separator:
`"".split("/") == [""]`, and separators delimit (possibly empty)
fields. -/
def splitOnChar (sep : Char) : PyStr → List PyStr
  | [] => [[]]
  | c :: rest =>
    let r := splitOnChar sep rest
    if c = sep then [] :: r
    else
      match r with
      | [] => [[c]]
      | p :: ps => (c :: p) :: ps

/-- Python `str.strip()`: drop whitespace from both ends. -/
def pyStrip (s : PyStr) : PyStr :=
  ((s.dropWhile Char.isWhitespace).reverse.dropWhile
    Char.isWhitespace).reverse

/-- Python `str.lower()`. -/
def pyLower (s : PyStr) : PyStr := s.map Char.toLower

/-- Decimal digits to a natural number; `none` on a non-digit or an empty
list. -/
def natOfDigits (ds : PyStr) : Option ℕ :=
  match ds with
  | [] => none
  | _ =>
    ds.foldl
      (fun acc c =>
        match acc with
        | none => none
        | some n => if c.isDigit then some (n * 10 + (c.toNat - 48)) else none)
      (some 0)

/-- Python `int(s)`: surrounding whitespace stripped, optional sign, then
decimal digits; `none` models a raised `ValueError`.  (Python additionally
accepts underscore digit grouping, which no input of interest uses.) -/
def pyInt (s : PyStr) : Option ℤ :=
  match pyStrip s with
  | '+' :: ds => (natOfDigits ds).map (fun n => (n : ℤ))
  | '-' :: ds => (natOfDigits ds).map (fun n => -(n : ℤ))
  | ds => (natOfDigits ds).map (fun n => (n : ℤ))

/-- A raised Python exception: its class name and message. -/
structure PyErr where
  cls : String
  msg : PyStr
  deriving Repr, DecidableEq

/-! ### Rate parsing (limiter.py lines 118-136) -/

/-- The `multipliers` table of `_parse_rate`. -/
def multipliers : List (PyStr × ℕ) :=
  [(pyStr "s", 1), (pyStr "sec", 1), (pyStr "second", 1),
   (pyStr "m", 60), (pyStr "min", 60), (pyStr "minute", 60),
   (pyStr "h", 3600), (pyStr "hr", 3600), (pyStr "hour", 3600),
   (pyStr "d", 86400), (pyStr "day", 86400)]

/-- Association lookup in `multipliers` (Python `period in multipliers` /
`multipliers[period]`). -/
def lookupMultiplier : List (PyStr × ℕ) → PyStr → Option ℕ
  | [], _ => none
  | p :: rest, k => if p.1 = k then some p.2 else lookupMultiplier rest k

/-- `_parse_rate(rate_string)` (limiter.py lines 118-136): split the
stripped string on `"/"`; exactly two parts required; the first must be a
Python int, the second (stripped, lowered) must be a known period.  Every
failure is a raised `ValueError` (message text abridged: the original
messages quote their arguments). -/
def _parse_rate (rate_string : PyStr) : Except PyErr (ℤ × ℕ) :=
  match splitOnChar '/' (pyStrip rate_string) with
  | [p0, p1] =>
    match pyInt p0 with
    | none =>
      .error ⟨"ValueError",
        pyStr "invalid literal for int with base 10: " ++ p0⟩
    | some count =>
      let period := pyLower (pyStrip p1)
      match lookupMultiplier multipliers period with
      | none =>
        .error ⟨"ValueError",
          pyStr "Unknown time period: " ++ period ++
            pyStr ". Use second/minute/hour/day"⟩
      | some mult => .ok (count, mult)
  | _ =>
    .error ⟨"ValueError",
      pyStr "Invalid rate format: " ++ rate_string ++
        pyStr ". Use count/period like 10/minute"⟩

/-- The `_route_limits` entry recorded by `RateLimiter.limit` at
route-registration time. -/
structure RouteLimit where
  count : ℤ
  window : ℕ
  rate_string : PyStr
  deriving Repr, DecidableEq

/-! ### RateLimiter registry (limiter.py lines 139-330) -/

/-- One registry bucket: whichever algorithm the strategy selected. -/
inductive Bucket
  | token : TokenBucket → Bucket
  | sliding : SlidingWindowCounter → Bucket
  | fixed : FixedWindowCounter → Bucket
  deriving Repr, DecidableEq

/-- The dispatch the wrappers perform (limiter.py lines 223-233 and
322-327): `isinstance(bucket, (SlidingWindowCounter, FixedWindowCounter))`
calls `hit`, otherwise `consume`. -/
def Bucket.hitOrConsume (b : Bucket) (now : ℚ) (cost : ℤ) :
    Bucket × Bool :=
  match b with
  | .sliding c =>
    let r := c.hit now cost
    (.sliding r.1, r.2)
  | .fixed c =>
    let r := c.hit now cost
    (.fixed r.1, r.2)
  | .token c =>
    let r := c.consume now (cost : ℚ)
    (.token r.1, r.2)

/-- Whether a rate-limited request was passed through to the wrapped
handler (`return fn(req, res, ...)`) or answered by `_rate_exceeded`. -/
inductive Outcome
  | allowed
  | rateExceeded
  deriving Repr, DecidableEq

/-- The mutable state of a `RateLimiter` (limiter.py lines 140-155), with
no Redis backend configured: the strategy string, the `enabled` flag, the
bucket registry keyed by `f"{key}:{scope}"`, and the whitelist and
blacklist sets (modelled as lists; only membership is used). -/
structure RateLimiter where
  strategy : String
  enabled : Bool
  buckets : List (PyStr × Bucket)
  whitelist : List PyStr
  blacklist : List PyStr
  deriving Repr, DecidableEq

/-- `bucket_key = f"{key}:{scope}"` (limiter.py line 164). -/
def bucketKey (key scope : PyStr) : PyStr := key ++ [':'] ++ scope

/-- Dictionary lookup in the bucket registry. -/
def findBucket : List (PyStr × Bucket) → PyStr → Option Bucket
  | [], _ => none
  | p :: rest, k => if p.1 = k then some p.2 else findBucket rest k

/-- Bucket construction on first use (limiter.py lines 167-172):
`token-bucket` gets `TokenBucket(limit, limit / window)`, `fixed-window`
gets `FixedWindowCounter(limit, window)`, anything else gets
`SlidingWindowCounter(limit, window)`. -/
def newBucket (strategy : String) (count : ℤ) (window now : ℚ) : Bucket :=
  if strategy = "token-bucket" then
    .token (TokenBucket.init (count : ℚ) ((count : ℚ) / window) now)
  else if strategy = "fixed-window" then
    .fixed { limit := count, window := window, count := 0,
             window_start := now }
  else
    .sliding { limit := count, window := window, hits := [] }

/-- `RateLimiter._get_bucket` (limiter.py lines 163-173): return the
registered bucket for `f"{key}:{scope}"`, creating it (per the strategy)
if absent.  Returns the bucket and the possibly-extended registry
state. -/
def RateLimiter.getBucket (st : RateLimiter) (now : ℚ) (key scope : PyStr)
    (count : ℤ) (window : ℚ) : Bucket × RateLimiter :=
  let bk := bucketKey key scope
  match findBucket st.buckets bk with
  | some b => (b, st)
  | none =>
    let nb := newBucket st.strategy count window now
    (nb, { st with buckets := st.buckets ++ [(bk, nb)] })

/-- In-place mutation of the registered bucket object: the registry entry
under `k` now holds the updated bucket value. -/
def setBucket (bs : List (PyStr × Bucket)) (k : PyStr) (b : Bucket) :
    List (PyStr × Bucket) :=
  bs.map (fun p => if p.1 = k then (k, b) else p)

/-- `RateLimiter.limit(rate_string, ...)` at route-registration time
(limiter.py lines 186-191): `_parse_rate` runs before the decorator is
returned, so a bad rate string raises at registration; on success the
route limit is recorded. -/
def RateLimiter.limitRegister (rate_string : PyStr) :
    Except PyErr RouteLimit :=
  match _parse_rate rate_string with
  | .error e => .error e
  | .ok cw => .ok { count := cw.1, window := cw.2, rate_string := rate_string }

/-- What `RateLimiter.shared_limit` fixes at route-registration time: the
parsed `(count, window)` the wrapper closes over, and the caller-chosen
shared scope name. -/
structure SharedLimit where
  count : ℤ
  window : ℕ
  scope_name : PyStr
  deriving Repr, DecidableEq

/-- `RateLimiter.shared_limit(rate_string, scope_name, ...)` at
route-registration time (limiter.py lines 264-267): `_parse_rate` runs
before the decorator is returned, so a bad rate string raises at
registration; on success the wrapper closes over the parsed count and
window and the shared scope name. -/
def RateLimiter.sharedLimitRegister (rate_string scope_name : PyStr) :
    Except PyErr SharedLimit :=
  match _parse_rate rate_string with
  | .error e => .error e
  | .ok cw => .ok { count := cw.1, window := cw.2, scope_name := scope_name }

/-- The per-request wrapper installed by `RateLimiter.limit` (limiter.py
lines 194-235), with no Redis backend: disabled limiter passes through;
whitelisted client keys pass through before any bucket access; blacklisted
keys are refused; otherwise the bucket for `(client_key, fn_scope)` is
fetched or created, charged `cost`, and the request passes iff the charge
succeeded.  (Header bookkeeping on the response object does not touch
limiter state and is omitted.) -/
def RateLimiter.limitWrapper (st : RateLimiter) (now : ℚ)
    (clientKey fnScope : PyStr) (count : ℤ) (window : ℚ) (cost : ℤ) :
    RateLimiter × Outcome :=
  if st.enabled = false then (st, .allowed)
  else if clientKey ∈ st.whitelist then (st, .allowed)
  else if clientKey ∈ st.blacklist then (st, .rateExceeded)
  else
    let r := st.getBucket now clientKey fnScope count window
    let h := r.1.hitOrConsume now cost
    let st2 := { r.2 with
      buckets := setBucket r.2.buckets (bucketKey clientKey fnScope) h.1 }
    (st2, if h.2 then .allowed else .rateExceeded)

/-- The per-request wrapper installed by `RateLimiter.shared_limit`
(limiter.py lines 264-298), no Redis backend: like `limitWrapper` but
with a caller-chosen shared scope and no blacklist check. -/
def RateLimiter.sharedLimitWrapper (st : RateLimiter) (now : ℚ)
    (clientKey scopeName : PyStr) (count : ℤ) (window : ℚ) (cost : ℤ) :
    RateLimiter × Outcome :=
  if st.enabled = false then (st, .allowed)
  else if clientKey ∈ st.whitelist then (st, .allowed)
  else
    let r := st.getBucket now clientKey scopeName count window
    let h := r.1.hitOrConsume now cost
    let st2 := { r.2 with
      buckets := setBucket r.2.buckets (bucketKey clientKey scopeName) h.1 }
    (st2, if h.2 then .allowed else .rateExceeded)

/-- `RateLimiter.dynamic(rate_func)` at route-registration time (limiter.py
lines 309-311): the wrapper is built and returned with no parsing, so
registration never raises. -/
def RateLimiter.dynamicRegister {ρ : Type} (rate_func : ρ → PyStr) :
    Except PyErr (ρ → PyStr) :=
  .ok rate_func

/-- The per-request wrapper installed by `RateLimiter.dynamic` (limiter.py
lines 312-328): on each request the rate string `rate_func(req)` is parsed
(a bad string raises here, at request time), then the bucket for
`(client_key, scope)` is fetched or created and charged the default cost 1.
There is no whitelist or blacklist check on this path. -/
def RateLimiter.dynamicRequest {ρ : Type} (st : RateLimiter) (now : ℚ)
    (rate_func : ρ → PyStr) (req : ρ) (clientKey fnScope : PyStr) :
    Except PyErr (RateLimiter × Outcome) :=
  if st.enabled = false then .ok (st, .allowed)
  else
    match _parse_rate (rate_func req) with
    | .error e => .error e
    | .ok cw =>
      let r := st.getBucket now clientKey fnScope cw.1 (cw.2 : ℚ)
      let h := r.1.hitOrConsume now 1
      let st2 := { r.2 with
        buckets := setBucket r.2.buckets (bucketKey clientKey fnScope) h.1 }
      .ok (st2, if h.2 then .allowed else .rateExceeded)

/-- A freshly constructed sliding-window `RateLimiter` with defaults. -/
def limiter0 : RateLimiter :=
  { strategy := "sliding-window", enabled := true, buckets := [],
    whitelist := [], blacklist := [] }

/-- `limiter0` after `whitelist_key("w")`. -/
def limiterW : RateLimiter :=
  { limiter0 with whitelist := [pyStr "w"] }

/-! ### MiddlewarePipeline (middleware.py lines 8-35) -/

/-- A middleware unit: given the request, the response and a continuation,
produce a result in the ambient monad `m` (which carries whatever effects
the middleware performs). -/
def Middleware (m : Type → Type) (ρ σ α : Type) : Type :=
  ρ → σ → (Unit → m α) → m α

/-- `execute(index)` inside `MiddlewarePipeline.run` (middleware.py lines
18-33), as structural recursion over the remaining chain: past the end,
call the terminal handler; otherwise call the current middleware with the
continuation that executes the rest.  The source's `called_next` flag is
dropped because both branches of `if not called_next` return `result`
unchanged. -/
def MiddlewarePipeline.execute {m : Type → Type} {ρ σ α : Type}
    (chain : List (Middleware m ρ σ α)) (final : ρ → σ → m α)
    (req : ρ) (res : σ) : m α :=
  match chain with
  | [] => final req res
  | mw :: rest =>
    mw req res (fun _ => MiddlewarePipeline.execute rest final req res)

/-- `MiddlewarePipeline.run(req, res, final_handler)` (middleware.py lines
15-35): execute from index 0 over a snapshot of the stack. -/
def MiddlewarePipeline.run {m : Type → Type} {ρ σ α : Type}
    (chain : List (Middleware m ρ σ α)) (req : ρ) (res : σ)
    (final : ρ → σ → m α) : m α :=
  MiddlewarePipeline.execute chain final req res

/-- Append one event to the observation log. -/
def logEvent {ε : Type} (e : ε) : StateM (List ε) Unit :=
  fun l => ((), l ++ [e])

/-- A middleware that logs `enter`, calls its continuation, logs `exitE`,
and returns the continuation's result (the claim's instrumented A, B,
C). -/
def logMw {ε ρ σ α : Type} (enter exitE : ε) :
    Middleware (StateM (List ε)) ρ σ α :=
  fun _ _ k => do
    logEvent enter
    let r ← k ()
    logEvent exitE
    pure r

/-- A middleware that logs `enter` and returns `v` without invoking its
continuation (the claim's short-circuiting middleware). -/
def scLogMw {ε ρ σ α : Type} (enter : ε) (v : α) :
    Middleware (StateM (List ε)) ρ σ α :=
  fun _ _ _ => do
    logEvent enter
    pure v

/-- A terminal handler that logs `e` and returns `v`. -/
def logHandler {ε ρ σ α : Type} (e : ε) (v : α) :
    ρ → σ → StateM (List ε) α :=
  fun _ _ => do
    logEvent e
    pure v

/-! ### PhotonAPI.__call__ entry (app.py lines 232-310) -/

/-- The lifecycle state the WSGI entry point reads and writes: the
`_shutting_down` flag and the `_active_requests` counter. -/
structure AppState where
  shutting_down : Bool
  active_requests : ℤ
  deriving Repr, DecidableEq

/-- What one `__call__` produced: the final lifecycle state, the response
status and headers, whether the request was dispatched (static serving or
the middleware pipeline plus route handler), and the value the in-flight
counter held while the response was being produced. -/
structure CallRecord where
  state : AppState
  status : ℕ
  headers : List (String × String)
  dispatched : Bool
  inflight_during : ℤ
  deriving Repr, DecidableEq

/-- `PhotonAPI.__call__` (app.py lines 232-310): increment
`_active_requests` (lines 236-237), then, if `_shutting_down`, answer 503
with `Connection: close` and return without dispatching (lines 240-243);
otherwise dispatch (static check, middleware pipeline, route handler —
abstracted into the `dispatch` argument).  The `finally` block decrements
the counter on every path (lines 308-310). -/
def PhotonAPI.call (st : AppState)
    (dispatch : Unit → ℕ × List (String × String)) : CallRecord :=
  let entered := st.active_requests + 1
  if st.shutting_down then
    { state := { st with active_requests := entered - 1 },
      status := 503, headers := [("Connection", "close")],
      dispatched := false, inflight_during := entered }
  else
    let r := dispatch ()
    { state := { st with active_requests := entered - 1 },
      status := r.1, headers := r.2,
      dispatched := true, inflight_during := entered }

/-! ## Theorems -/

/-! ### TokenBucket lemmas and C1 -/

theorem consume_capacity (b : TokenBucket) (now cost : ℚ) :
    ((b.consume now cost).1).capacity = b.capacity := by
  dsimp only [TokenBucket.consume]
  split <;> rfl

theorem consume_refill_rate (b : TokenBucket) (now cost : ℚ) :
    ((b.consume now cost).1).refill_rate = b.refill_rate := by
  dsimp only [TokenBucket.consume]
  split <;> rfl

theorem consume_last_refill (b : TokenBucket) (now cost : ℚ) :
    ((b.consume now cost).1).last_refill = now := by
  dsimp only [TokenBucket.consume]
  split <;> rfl

/-- One `consume` call preserves the conservation invariant, provided the
clock did not go backwards, the refill rate is nonnegative and the cost is
nonnegative. -/
theorem consume_inv (b : TokenBucket) (now cost : ℚ) (hb : TBInv b)
    (hrate : 0 ≤ b.refill_rate) (hclock : b.last_refill ≤ now)
    (hcost : 0 ≤ cost) : TBInv ((b.consume now cost).1) := by
  obtain ⟨h0, hc⟩ := hb
  have hcap : (0 : ℚ) ≤ b.capacity := le_trans h0 hc
  have helapsed : 0 ≤ (now - b.last_refill) * b.refill_rate :=
    mul_nonneg (sub_nonneg.2 hclock) hrate
  have hmin1 : min b.capacity (b.tokens + (now - b.last_refill) * b.refill_rate)
      ≤ b.capacity := min_le_left _ _
  have hmin0 : (0 : ℚ) ≤
      min b.capacity (b.tokens + (now - b.last_refill) * b.refill_rate) :=
    le_min hcap (by linarith)
  dsimp only [TokenBucket.consume, TBInv]
  split_ifs with hge <;> refine ⟨?_, ?_⟩ <;> dsimp only <;> linarith

theorem eventsWF_take (t : ℚ) (es : List (ℚ × ℚ)) (n : ℕ)
    (h : EventsWF t es) : EventsWF t (es.take n) := by
  induction es generalizing t n with
  | nil => simp only [List.take_nil]; trivial
  | cons e rest ih =>
    cases n with
    | zero => trivial
    | succ m => exact ⟨h.1, h.2.1, ih e.1 m h.2.2⟩

/-- The invariant holds along any well-formed trace of `consume` calls. -/
theorem consumeTrace_inv (events : List (ℚ × ℚ)) (b : TokenBucket)
    (hb : TBInv b) (hrate : 0 ≤ b.refill_rate)
    (hwf : EventsWF b.last_refill events) :
    TBInv (consumeTrace b events) := by
  induction events generalizing b with
  | nil => exact hb
  | cons e rest ih =>
    obtain ⟨hle, hcost, hrest⟩ := hwf
    have hstep := consume_inv b e.1 e.2 hb hrate hle hcost
    have hrate2 : 0 ≤ ((b.consume e.1 e.2).1).refill_rate := by
      rw [consume_refill_rate]; exact hrate
    have hwf2 : EventsWF ((b.consume e.1 e.2).1).last_refill rest := by
      rw [consume_last_refill]; exact hrest
    exact ih (b.consume e.1 e.2).1 hstep hrate2 hwf2

/-- C1. Token bucket conservation: starting from a freshly constructed
`TokenBucket` with nonnegative capacity and refill rate, along any
well-formed sequence of `consume(cost)` calls (clock nondecreasing, costs
nonnegative) the `tokens` field stays in `[0, capacity]` at every
intermediate point; moreover a failed `consume` leaves `tokens` equal to
the refilled value `min capacity (tokens + elapsed * refill_rate)`, i.e.
unchanged except for the refill. -/
theorem tokenBucket_conservation (capacity rate t0 : ℚ)
    (events : List (ℚ × ℚ)) (n : ℕ) (hcap : 0 ≤ capacity)
    (hrate : 0 ≤ rate) (hwf : EventsWF t0 events) :
    TBInv (consumeTrace (TokenBucket.init capacity rate t0)
      (events.take n)) ∧
    (∀ (b : TokenBucket) (now cost : ℚ), (b.consume now cost).2 = false →
      ((b.consume now cost).1).tokens =
        min b.capacity (b.tokens + (now - b.last_refill) * b.refill_rate)) := by
  constructor
  · exact consumeTrace_inv (events.take n) (TokenBucket.init capacity rate t0)
      ⟨hcap, le_refl _⟩ hrate (eventsWF_take t0 events n hwf)
  · intro b now cost hfail
    dsimp only [TokenBucket.consume] at hfail ⊢
    split_ifs at hfail ⊢ <;> simp_all

/-- Witness for C1 at a concrete bucket and trace. -/
theorem tokenBucket_conservation_witness :
    ((0 : ℚ) ≤ 10 ∧ (0 : ℚ) ≤ 2 ∧
      EventsWF (0 : ℚ) [(1, 3), (2, 20), (5, 10)]) ∧
    TBInv (consumeTrace (TokenBucket.init 10 2 0)
      (([(1, 3), (2, 20), (5, 10)] : List (ℚ × ℚ)).take 3)) :=
  ⟨⟨by norm_num, by norm_num, by decide⟩,
    (tokenBucket_conservation 10 2 0 [(1, 3), (2, 20), (5, 10)] 3
      (by norm_num) (by norm_num) (by decide)).1⟩

/-! ### SlidingWindowCounter: C2 and C9 -/

/-- C2. Sliding window hit semantics.  When the clock is ahead of every
recorded hit and the stored list respects the limit (both hold in every
reachable state), the purge retains exactly the hits in
`(now - window, now]`; `hit(cost)` succeeds iff the retained count plus
`cost` is at most `limit`; on success exactly `cost` copies of `now` are
appended, on failure no hit is recorded; `hit 0` always succeeds adding
nothing, and `hit cost` with `cost > limit` always fails. -/
theorem slidingWindow_hit_semantics (c : SlidingWindowCounter) (now : ℚ)
    (cost : ℤ) (hts : ∀ t ∈ c.hits, t ≤ now)
    (hlen : (c.hits.length : ℤ) ≤ c.limit) :
    c.purge now = c.hits.filter
      (fun t => decide (now - c.window < t) && decide (t ≤ now)) ∧
    ((c.hit now cost).2 = true ↔
      ((c.purge now).length : ℤ) + cost ≤ c.limit) ∧
    ((c.hit now cost).2 = true →
      ((c.hit now cost).1).hits =
        c.purge now ++ List.replicate cost.toNat now) ∧
    ((c.hit now cost).2 = false →
      ((c.hit now cost).1).hits = c.purge now) ∧
    (cost = 0 →
      (c.hit now 0).2 = true ∧ ((c.hit now 0).1).hits = c.purge now) ∧
    (c.limit < cost → (c.hit now cost).2 = false) := by
  have hplen : ((c.purge now).length : ℤ) ≤ c.limit := by
    have := List.length_filter_le
      (fun t => decide (now - c.window < t)) c.hits
    calc ((c.purge now).length : ℤ) ≤ (c.hits.length : ℤ) := by
          exact_mod_cast this
      _ ≤ c.limit := hlen
  refine ⟨?_, ?_, ?_, ?_, ?_, ?_⟩
  · unfold SlidingWindowCounter.purge
    apply List.filter_congr
    intro t ht
    have h1 : t ≤ now := hts t ht
    simp [h1]
  · dsimp only [SlidingWindowCounter.hit]
    split_ifs with h <;> simp [h]
  · intro hsucc
    dsimp only [SlidingWindowCounter.hit] at hsucc ⊢
    split_ifs at hsucc ⊢ <;> simp_all
  · intro hfail
    dsimp only [SlidingWindowCounter.hit] at hfail ⊢
    split_ifs at hfail ⊢ <;> simp_all
  · intro h0
    dsimp only [SlidingWindowCounter.hit]
    have hcond : ((c.purge now).length : ℤ) + 0 ≤ c.limit := by linarith
    split_ifs with h <;> simp_all
  · intro hbig
    dsimp only [SlidingWindowCounter.hit]
    have hge : (0 : ℤ) ≤ ((c.purge now).length : ℤ) := Int.natCast_nonneg _
    split_ifs with h
    · exfalso; linarith
    · rfl

/-- Witness for C2 at a concrete counter. -/
theorem slidingWindow_hit_semantics_witness :
    ((∀ t ∈ ({1, 5} : List ℚ), t ≤ (6 : ℚ)) ∧
      ((({1, 5} : List ℚ).length : ℤ) ≤ 2)) ∧
    ((SlidingWindowCounter.hit ⟨2, 10, [1, 5]⟩ 6 1).2 = true ↔
      (((SlidingWindowCounter.purge ⟨2, 10, [1, 5]⟩ 6).length : ℤ) + 1 ≤ 2)) :=
  ⟨⟨by decide, by decide⟩,
    (slidingWindow_hit_semantics ⟨2, 10, [1, 5]⟩ 6 1 (by decide)
      (by decide)).2.1⟩

/-- C9 counterexample.  Reachable state: one successful `hit` at clock `0`
on an empty counter (limit 5, window 10) leaves `hits = [0]`.  Reading
`reset_at` at clock `100` gives `0 + 10 = 10`, but no hit lies in the
trailing window `(90, 100]`, so the claim (oldest hit still within the
trailing window, else `now + window`) demands `110`.  `reset_at` performs
no purge, so the two disagree. -/
theorem sliding_reset_at_cex :
    (SlidingWindowCounter.hit ⟨5, 10, []⟩ 0 1 =
      (⟨5, 10, [0]⟩, true)) ∧
    SlidingWindowCounter.purge ⟨5, 10, [0]⟩ 100 = [] ∧
    SlidingWindowCounter.reset_at ⟨5, 10, [0]⟩ 100 = 10 ∧
    resetAtSpec ⟨5, 10, [0]⟩ 100 = 110 ∧
    SlidingWindowCounter.reset_at ⟨5, 10, [0]⟩ 100 ≠
      resetAtSpec ⟨5, 10, [0]⟩ 100 := by
  refine ⟨?_, ?_, ?_, ?_, ?_⟩
  · dsimp only [SlidingWindowCounter.hit, SlidingWindowCounter.purge]
    norm_num
  · norm_num [SlidingWindowCounter.purge]
  · norm_num [SlidingWindowCounter.reset_at]
  · norm_num [resetAtSpec, SlidingWindowCounter.purge]
  · norm_num [resetAtSpec, SlidingWindowCounter.purge,
      SlidingWindowCounter.reset_at]

/-- C9 as amended: `reset_at` returns the head of the stored hits list
(the oldest hit kept by the *last* purge, which happens only inside `hit`;
that hit may already lie outside the current trailing window) plus the
window, and `now + window` when the stored list is empty.  Whenever no
stored hit has expired (the purge at `now` would keep the whole list) this
coincides with the oldest-retained-hit-in-window reading of the spec. -/
theorem sliding_reset_at_amended (c : SlidingWindowCounter) (now : ℚ)
    (hfresh : c.purge now = c.hits) :
    c.reset_at now =
      ((c.hits.head?).map (fun t => t + c.window)).getD (now + c.window) ∧
    c.reset_at now = resetAtSpec c now := by
  constructor
  · cases h : c.hits with
    | nil => simp [SlidingWindowCounter.reset_at, h]
    | cons t ts => simp [SlidingWindowCounter.reset_at, h]
  · unfold resetAtSpec SlidingWindowCounter.reset_at
    rw [hfresh]

/-- Witness for the amended C9 at a concrete counter whose hits are all
still inside the window. -/
theorem sliding_reset_at_amended_witness :
    (SlidingWindowCounter.purge ⟨5, 10, [3, 7]⟩ 8 = [3, 7]) ∧
    SlidingWindowCounter.reset_at ⟨5, 10, [3, 7]⟩ 8 =
      resetAtSpec ⟨5, 10, [3, 7]⟩ 8 :=
  ⟨by norm_num [SlidingWindowCounter.purge],
    (sliding_reset_at_amended ⟨5, 10, [3, 7]⟩ 8
      (by norm_num [SlidingWindowCounter.purge])).2⟩

/-! ### FixedWindowCounter: C3 -/

/-- C3. Fixed window reset and success condition: a `hit(cost)` arriving
with `now - window_start ≥ window` first resets the counter (so the cost
is applied against `count = 0` and `window_start = now`); it then succeeds
iff `0 + cost ≤ limit`, leaving `count = cost` on success and `count = 0`
(the post-reset value, unchanged by the failed attempt) on failure. -/
theorem fixedWindow_reset (c : FixedWindowCounter) (now : ℚ) (cost : ℤ)
    (hexp : c.window ≤ now - c.window_start) :
    ((c.hit now cost).2 = true ↔ 0 + cost ≤ c.limit) ∧
    ((c.hit now cost).1).window_start = now ∧
    ((c.hit now cost).2 = true → ((c.hit now cost).1).count = cost) ∧
    ((c.hit now cost).2 = false → ((c.hit now cost).1).count = 0) ∧
    ((c.hit now cost).1).limit = c.limit ∧
    ((c.hit now cost).1).window = c.window := by
  dsimp only [FixedWindowCounter.hit]
  rw [if_pos hexp, if_pos hexp]
  split_ifs with h <;>
    simp_all <;> omega

/-- Witness for C3: a counter saturated in an old window accepts a fresh
hit after the window has elapsed. -/
theorem fixedWindow_reset_witness :
    ((10 : ℚ) ≤ 42 - 0) ∧
    ((FixedWindowCounter.hit ⟨3, 10, 3, 0⟩ 42 2).2 = true ↔
      (0 : ℤ) + 2 ≤ 3) :=
  ⟨by norm_num, (fixedWindow_reset ⟨3, 10, 3, 0⟩ 42 2 (by norm_num)).1⟩

/-! ### Rate parsing: C4 -/

/-- C4 counterexample.  `_parse_rate("bogus")` raises a `ValueError` —
there is no `ConfigError` anywhere in the codebase — and the failure is
not confined to registration time: `RateLimiter.dynamic` builds its
wrapper without parsing (registration always succeeds), and the very same
parse error is then raised inside the wrapper when a request arrives. -/
theorem parse_rate_cex :
    _parse_rate (pyStr "bogus") =
      .error ⟨"ValueError",
        pyStr "Invalid rate format: " ++ pyStr "bogus" ++
          pyStr ". Use count/period like 10/minute"⟩ ∧
    ("ValueError" : String) ≠ "ConfigError" ∧
    RateLimiter.dynamicRegister (fun (_ : Unit) => pyStr "bogus") =
      .ok (fun _ => pyStr "bogus") ∧
    RateLimiter.dynamicRequest limiter0 0 (fun (_ : Unit) => pyStr "bogus")
      () (pyStr "k") (pyStr "route") =
      .error ⟨"ValueError",
        pyStr "Invalid rate format: " ++ pyStr "bogus" ++
          pyStr ". Use count/period like 10/minute"⟩ :=
  ⟨by decide, by decide, rfl, by decide⟩

/-- C4 as amended: `parseRate("10/minute") = (10, 60)` and
`parseRate("3/hour") = (3, 3600)`; every parse failure raises `ValueError`
(the repository defines no `ConfigError`); `RateLimiter.limit` and
`RateLimiter.shared_limit` run the parse at route-registration time (the
decorator is not built on a bad rate string), but `RateLimiter.dynamic`
parses per request, so there the failure is raised at request time. -/
theorem parse_rate_amended (s : PyStr) (st : RateLimiter) (now : ℚ)
    (f : Unit → PyStr) (ck sc : PyStr) (e : PyErr)
    (hen : st.enabled = true) (herr : _parse_rate (f ()) = .error e) :
    _parse_rate (pyStr "10/minute") = .ok (10, 60) ∧
    _parse_rate (pyStr "3/hour") = .ok (3, 3600) ∧
    (∀ e2, _parse_rate s = .error e2 → e2.cls = "ValueError") ∧
    RateLimiter.limitRegister s =
      (_parse_rate s).map
        (fun cw => { count := cw.1, window := cw.2, rate_string := s }) ∧
    (∀ sn, RateLimiter.sharedLimitRegister s sn =
      (_parse_rate s).map
        (fun cw => { count := cw.1, window := cw.2, scope_name := sn })) ∧
    RateLimiter.dynamicRegister f = .ok f ∧
    RateLimiter.dynamicRequest st now f () ck sc = .error e := by
  refine ⟨by decide, by decide, ?_, ?_, ?_, rfl, ?_⟩
  · intro e2 h
    unfold _parse_rate at h
    split at h
    · split at h
      · cases h; rfl
      · dsimp only at h
        split at h
        · cases h; rfl
        · exact absurd h (by simp)
    · cases h; rfl
  · unfold RateLimiter.limitRegister
    cases hp : _parse_rate s <;> simp [hp, Except.map]
  · intro sn
    unfold RateLimiter.sharedLimitRegister
    cases hp : _parse_rate s <;> simp [hp, Except.map]
  · unfold RateLimiter.dynamicRequest
    rw [hen, herr]
    simp

/-- Witness for the amended C4: a concrete enabled limiter and a rate
function returning `"bogus"`. -/
theorem parse_rate_amended_witness :
    (limiter0.enabled = true ∧
      _parse_rate ((fun (_ : Unit) => pyStr "bogus") ()) =
        .error ⟨"ValueError",
          pyStr "Invalid rate format: " ++ pyStr "bogus" ++
            pyStr ". Use count/period like 10/minute"⟩) ∧
    _parse_rate (pyStr "10/minute") = .ok (10, 60) :=
  ⟨⟨rfl, by decide⟩,
    (parse_rate_amended (pyStr "x") limiter0 0 (fun _ => pyStr "bogus")
      (pyStr "k") (pyStr "r")
      ⟨"ValueError",
        pyStr "Invalid rate format: " ++ pyStr "bogus" ++
          pyStr ". Use count/period like 10/minute"⟩
      rfl (by decide)).1⟩

/-! ### Whitelist bypass: C5 -/

/-- C5 counterexample.  The `dynamic` entry point never consults the
whitelist: for the whitelisted key `"w"` it creates and mutates a bucket
(the registry changes), and with a zero-count rate it even refuses the
whitelisted request. -/
theorem whitelist_bypass_cex :
    (pyStr "w" ∈ limiterW.whitelist) ∧
    RateLimiter.dynamicRequest limiterW 0
      (fun (_ : Unit) => pyStr "2/second") () (pyStr "w") (pyStr "route") =
      .ok ({ limiterW with
        buckets := [(bucketKey (pyStr "w") (pyStr "route"),
          .sliding ⟨2, 1, [0]⟩)] }, .allowed) ∧
    ({ limiterW with buckets := [(bucketKey (pyStr "w") (pyStr "route"),
        Bucket.sliding ⟨2, 1, [0]⟩)] } : RateLimiter).buckets ≠
      limiterW.buckets ∧
    RateLimiter.dynamicRequest limiterW 5
      (fun (_ : Unit) => pyStr "0/minute") () (pyStr "w") (pyStr "route") =
      .ok ({ limiterW with
        buckets := [(bucketKey (pyStr "w") (pyStr "route"),
          .sliding ⟨0, 60, []⟩)] }, .rateExceeded) :=
  ⟨by decide, by decide, by decide, by decide⟩

/-- C5 as amended: the `limit` and `shared_limit` wrappers let an enabled
limiter pass every request from a whitelisted client key straight to the
wrapped handler, with the limiter state (in particular the bucket
registry) untouched; the `dynamic` wrapper performs no whitelist check and
accesses the bucket registry as usual. -/
theorem whitelist_bypass_amended (st : RateLimiter) (now : ℚ)
    (ck sc : PyStr) (count : ℤ) (window : ℚ) (cost : ℤ)
    (hen : st.enabled = true) (hwl : ck ∈ st.whitelist) :
    st.limitWrapper now ck sc count window cost = (st, .allowed) ∧
    st.sharedLimitWrapper now ck sc count window cost = (st, .allowed) := by
  constructor <;>
    simp [RateLimiter.limitWrapper, RateLimiter.sharedLimitWrapper,
      hen, hwl]

/-- Witness for the amended C5 at a concrete whitelisted key. -/
theorem whitelist_bypass_amended_witness :
    (limiterW.enabled = true ∧ pyStr "w" ∈ limiterW.whitelist) ∧
    limiterW.limitWrapper 0 (pyStr "w") (pyStr "r") 5 60 1 =
      (limiterW, .allowed) :=
  ⟨⟨rfl, by decide⟩,
    (whitelist_bypass_amended limiterW 0 (pyStr "w") (pyStr "r") 5 60 1
      rfl (by decide)).1⟩

/-! ### Bucket key collision: C10 -/

theorem findBucket_append_self (bs : List (PyStr × Bucket)) (k : PyStr)
    (b : Bucket) (h : findBucket bs k = none) :
    findBucket (bs ++ [(k, b)]) k = some b := by
  induction bs with
  | nil => simp [findBucket]
  | cons p rest ih =>
    by_cases hpk : p.1 = k
    · exfalso
      unfold findBucket at h
      rw [if_pos hpk] at h
      exact Option.noConfusion h
    · unfold findBucket at h
      rw [if_neg hpk] at h
      simp only [List.cons_append, findBucket, if_neg hpk]
      exact ih h

/-- After `_get_bucket(key, scope, ...)`, the registry maps
`bucketKey key scope` to exactly the bucket that call returned. -/
theorem getBucket_mem (st : RateLimiter) (now : ℚ) (k s : PyStr)
    (c : ℤ) (w : ℚ) :
    findBucket ((st.getBucket now k s c w).2).buckets (bucketKey k s) =
      some ((st.getBucket now k s c w).1) := by
  dsimp only [RateLimiter.getBucket]
  cases hf : findBucket st.buckets (bucketKey k s) with
  | some b => simp [hf]
  | none => simp [hf, findBucket_append_self _ _ _ hf]

/-- C10.  The registry key is the plain concatenation
`key ++ ":" ++ scope`, which is not injective: `("a:b", "c")` and
`("a", "b:c")` are distinct pairs with the same bucket key, and in general
whenever two (client, scope) pairs collide on their bucket key, a second
`_get_bucket` call returns the very bucket the first call registered, with
the registry unchanged — the two pairs silently share one quota. -/
theorem bucket_key_collision (st : RateLimiter) (now now2 : ℚ)
    (k1 s1 k2 s2 : PyStr) (c1 c2 : ℤ) (w1 w2 : ℚ)
    (h : bucketKey k1 s1 = bucketKey k2 s2) :
    bucketKey (pyStr "a:b") (pyStr "c") =
      bucketKey (pyStr "a") (pyStr "b:c") ∧
    (pyStr "a:b", pyStr "c") ≠ (pyStr "a", pyStr "b:c") ∧
    ((st.getBucket now k1 s1 c1 w1).2).getBucket now2 k2 s2 c2 w2 =
      ((st.getBucket now k1 s1 c1 w1).1,
       (st.getBucket now k1 s1 c1 w1).2) := by
  refine ⟨by decide, by decide, ?_⟩
  have hm := getBucket_mem st now k1 s1 c1 w1
  rw [h] at hm
  conv_lhs => rw [RateLimiter.getBucket]
  rw [hm]

/-- Witness for C10: the colliding pairs `("a:b", "c")` and
`("a", "b:c")` on a fresh limiter. -/
theorem bucket_key_collision_witness :
    (bucketKey (pyStr "a:b") (pyStr "c") =
      bucketKey (pyStr "a") (pyStr "b:c")) ∧
    ((limiter0.getBucket 0 (pyStr "a:b") (pyStr "c") 5 60).2).getBucket 1
        (pyStr "a") (pyStr "b:c") 7 30 =
      ((limiter0.getBucket 0 (pyStr "a:b") (pyStr "c") 5 60).1,
       (limiter0.getBucket 0 (pyStr "a:b") (pyStr "c") 5 60).2) :=
  ⟨by decide,
    (bucket_key_collision limiter0 0 1 (pyStr "a:b") (pyStr "c")
      (pyStr "a") (pyStr "b:c") 5 7 60 30 (by decide)).2.2⟩

/-! ### MiddlewarePipeline: C6 and C7 -/

/-- C6.  Middleware onion ordering: running a pipeline of the three
instrumented middlewares A, B, C (each logging its enter event, calling
its continuation, then logging its exit event) over a terminal handler
that logs its own event and returns `v` appends exactly
`A-enter, B-enter, C-enter, handle, C-exit, B-exit, A-exit` to the log and
returns `v`: registration order inward, reverse registration order
outward. -/
theorem middleware_onion_order {ε ρ σ α : Type} (ae ax be bx ce cx he : ε)
    (v : α) (req : ρ) (res : σ) (l : List ε) :
    MiddlewarePipeline.run [logMw ae ax, logMw be bx, logMw ce cx] req res
      (logHandler he v) l = (v, l ++ [ae, be, ce, he, cx, bx, ax]) := by
  simp [MiddlewarePipeline.run, MiddlewarePipeline.execute, logMw,
    logHandler, logEvent, bind, StateT.bind, pure, StateT.pure]

/-- C7.  Short-circuit contract: if a middleware's value at `(req, res)`
is `r` regardless of the continuation it is handed (it returns without
invoking its continuation), then running any pipeline `pre ++ mw :: post`
equals running `pre` alone over the constant terminal `r` — the
middlewares of `post` and the real terminal handler contribute nothing,
while the already-entered `pre` still wrap the result — and with no outer
middleware the pipeline's result is exactly `r`. -/
theorem middleware_short_circuit {m : Type → Type} {ρ σ α : Type}
    (pre post : List (Middleware m ρ σ α)) (mw : Middleware m ρ σ α)
    (final : ρ → σ → m α) (req : ρ) (res : σ) (r : m α)
    (h : ∀ k, mw req res k = r) :
    MiddlewarePipeline.run (pre ++ mw :: post) req res final =
      MiddlewarePipeline.run pre req res (fun _ _ => r) ∧
    MiddlewarePipeline.run (mw :: post) req res final = r := by
  have key : ∀ pre2 : List (Middleware m ρ σ α),
      MiddlewarePipeline.execute (pre2 ++ mw :: post) final req res =
        MiddlewarePipeline.execute pre2 (fun _ _ => r) req res := by
    intro pre2
    induction pre2 with
    | nil =>
      simp only [List.nil_append, MiddlewarePipeline.execute]
      exact h _
    | cons p rest ih =>
      simp only [List.cons_append, MiddlewarePipeline.execute]
      congr 1
      funext u
      exact ih
  refine ⟨key pre, ?_⟩
  have h0 := key []
  simpa [MiddlewarePipeline.run, MiddlewarePipeline.execute] using h0

/-- Witness for C7: B short-circuits between A and C; the log shows
A-enter (1), B-enter (3), A-exit (2), and neither C (4, 5) nor the
handler (6) runs; the pipeline result is B's value 7. -/
theorem middleware_short_circuit_witness :
    (MiddlewarePipeline.run
        ([logMw 1 2] ++ scLogMw 3 7 :: [logMw 4 5]) () ()
        (logHandler 6 (0 : ℕ)) =
      MiddlewarePipeline.run [logMw 1 2] () ()
        (fun _ _ => (fun l => ((7 : ℕ), l ++ [(3 : ℕ)])))) ∧
    MiddlewarePipeline.run (scLogMw 3 7 :: [logMw 4 5]) () ()
      (logHandler 6 (0 : ℕ)) = (fun l => ((7 : ℕ), l ++ [(3 : ℕ)])) :=
  middleware_short_circuit [logMw 1 2] [logMw 4 5] (scLogMw 3 7)
    (logHandler 6 0) () () (fun l => (7, l ++ [3])) (fun _ => rfl)

/-! ### Shutdown rejection: C8 -/

/-- C8 counterexample.  A request arriving with the shutting-down flag set
does get the 503 and is not dispatched, but it IS counted in the in-flight
counter: `__call__` increments `_active_requests` (app.py lines 236-237)
before testing `_shutting_down` (line 240), so while the rejection
response is produced the counter reads 1, not 0. -/
theorem shutdown_counted_cex :
    (PhotonAPI.call ⟨true, 0⟩ (fun _ => (200, []))).inflight_during = 1 ∧
    (PhotonAPI.call ⟨true, 0⟩ (fun _ => (200, []))).inflight_during ≠ 0 ∧
    (PhotonAPI.call ⟨true, 0⟩ (fun _ => (200, []))).status = 503 ∧
    (PhotonAPI.call ⟨true, 0⟩ (fun _ => (200, []))).dispatched = false :=
  ⟨by decide, by decide, by decide, by decide⟩

/-- C8 as amended: with the shutting-down flag set, every inbound request
is answered 503 with a `Connection: close` header and is never dispatched
(no static serving, middleware pipeline or route handler), but it is
briefly counted: the in-flight counter is incremented before the
shutting-down check and decremented again by the `finally` block, so it
reads one above its prior value during the rejection and returns to the
prior value afterwards. -/
theorem shutdown_rejection_amended (st : AppState)
    (dispatch : Unit → ℕ × List (String × String))
    (hsd : st.shutting_down = true) :
    (PhotonAPI.call st dispatch).status = 503 ∧
    ("Connection", "close") ∈ (PhotonAPI.call st dispatch).headers ∧
    (PhotonAPI.call st dispatch).dispatched = false ∧
    (PhotonAPI.call st dispatch).inflight_during =
      st.active_requests + 1 ∧
    ((PhotonAPI.call st dispatch).state).active_requests =
      st.active_requests ∧
    ((PhotonAPI.call st dispatch).state).shutting_down =
      st.shutting_down := by
  simp [PhotonAPI.call, hsd]

/-- Witness for the amended C8 at a concrete draining state. -/
theorem shutdown_rejection_amended_witness :
    ((⟨true, 0⟩ : AppState).shutting_down = true) ∧
    (PhotonAPI.call ⟨true, 0⟩ (fun _ => (200, []))).status = 503 :=
  ⟨rfl, (shutdown_rejection_amended ⟨true, 0⟩ (fun _ => (200, [])) rfl).1⟩

end PhotonAPI
